import Mathlib

/-!
Shallow embedding of the EPS accretion/dilution service (`app/main.py`):
the pure pro-forma calculator behind `POST /proforma` and the
net-income-derivation step of the basics resolver used by `GET /basics`.

Python floats are modelled as exact rationals.  The Python idiom
`x or 0.0` on an optional float is modelled by `orZero` (a present `0.0`
and an absent value both map to `0.0`, exactly as Python truthiness does).
-/

namespace EpsService

/-- Deal consideration type (`type: Literal["cash", "stock", "mix"]`). -/
inductive DealType where
| cash
| stock
| mix
deriving DecidableEq

/-- The `DealStructure` request model with its pydantic defaults.
`exchange_ratio` is declared `Optional[float]`; `ppa_amort_post_tax` is
declared `float = 0.0` but the handler still guards it with `or 0.0`
(lines 107 and 153), so it is modelled as an option as well. -/
structure DealStructure where
  type : DealType
  exchange_ratio : Option ℚ := some 0
  new_debt : ℚ := 0
  cost_of_debt : ℚ := 6 / 100
  cash_used : ℚ := 0
  lost_interest : ℚ := 3 / 100
  synergies_pre_tax : ℚ := 0
  tax_rate : ℚ := 1 / 4
  ppa_amort_post_tax : Option ℚ := some 0
deriving DecidableEq

/-- The dictionary returned by `_get_basics` (keys `price`, `shares`,
`eps_ttm`, `ni_ttm`, `currency`, `notes`). -/
structure BasicsSnapshot where
  price : Option ℚ := none
  shares : Option ℚ := none
  eps_ttm : Option ℚ := none
  ni_ttm : Option ℚ := none
  currency : Option String := none
  notes : String := ""
deriving DecidableEq

/-- The `ProFormaBridge` response model (all net-income and share fields
are declared optional with default `None`). -/
structure ProFormaBridge where
  ni_pf : Option ℚ := none
  ni_acq : Option ℚ := none
  ni_tgt : Option ℚ := none
  synergies_net : ℚ := 0
  interest_new_debt_net : ℚ := 0
  interest_lost_net : ℚ := 0
  ppa_amort_post_tax : ℚ := 0
  shares_pf : Option ℚ := none
  shares_acq : Option ℚ := none
deriving DecidableEq

/-- The `ProFormaResponse` model. -/
structure ProFormaResponse where
  eps_pf : Option ℚ
  eps_acq : Option ℚ
  accretion_pct : Option ℚ
  bridge : ProFormaBridge
  notes : String := ""
deriving DecidableEq

/-- Python `x or 0.0` on an optional float: `None` falls back to `0.0`
(and a present `0.0`, being falsy, also yields `0.0` — the same value). -/
def orZero : Option ℚ → ℚ
| none => 0
| some x => x

/-- Rendering of a nonnegative rational to two decimal places, as Python
`f"{x:.2f}"` produces on the values this service formats (the clamped
tax rate, which is `0.0` or `0.6` whenever the note is emitted). -/
def fmt2 (q : ℚ) : String :=
  let n : ℕ := (⌊q * 100 + 1 / 2⌋).toNat
  toString (n / 100) ++ "." ++ (if n % 100 < 10 then "0" else "") ++ toString (n % 100)

/-- `max(0.0, min(0.6, req.structure.tax_rate))` (line 90). -/
def clampedTax (s : DealStructure) : ℚ := max 0 (min (6 / 10) s.tax_rate)

/-- `synergies_net = synergies_pre_tax * (1 - tax)` (line 94). -/
def synergiesNet (s : DealStructure) : ℚ := s.synergies_pre_tax * (1 - clampedTax s)

/-- `interest_new_debt_net = new_debt * cost_of_debt * (1 - tax)` (line 95). -/
def interestNewDebtNet (s : DealStructure) : ℚ :=
  s.new_debt * s.cost_of_debt * (1 - clampedTax s)

/-- `interest_lost_net = cash_used * lost_interest * (1 - tax)` (line 96). -/
def interestLostNet (s : DealStructure) : ℚ :=
  s.cash_used * s.lost_interest * (1 - clampedTax s)

/-- `ni_pf` (lines 98-108): defaulted acquirer and target net income plus
the three after-tax adjustments and the PPA amortization term. -/
def niPf (A T : BasicsSnapshot) (s : DealStructure) : ℚ :=
  orZero A.ni_ttm + orZero T.ni_ttm + synergiesNet s
    - interestNewDebtNet s - interestLostNet s - orZero s.ppa_amort_post_tax

/-- `shares_acq = A.get("shares") or 0.0` (line 111). -/
def sharesAcq (A : BasicsSnapshot) : ℚ := orZero A.shares

/-- `shares_pf` (lines 110-118): acquirer shares, plus new shares
`tgt_shares * er` issued only for stock or mix consideration. -/
def sharesPf (A T : BasicsSnapshot) (s : DealStructure) : ℚ :=
  if s.type = DealType.stock ∨ s.type = DealType.mix then
    orZero A.shares + orZero T.shares * orZero s.exchange_ratio
  else
    orZero A.shares

/-- A conditionally emitted note: the list holding `n` exactly when the
emitting branch was taken. -/
def noteIf (c : Prop) [Decidable c] (n : String) : List String :=
  if c then [n] else []

def acqMissingNote : String := "Missing acquirer NI or shares; EPS may be unavailable."

def tgtMissingNote : String := "Missing target NI or shares; combination NI may be approximate."

/-- `f"Adjusted tax_rate to {tax:.2f}."` (line 92). -/
def taxNote (s : DealStructure) : String :=
  "Adjusted tax_rate to " ++ (fmt2 (clampedTax s) ++ ".")

def erNote : String := "Exchange ratio not provided or zero; no new shares assumed."

def pfZeroNote : String := "Pro forma shares are zero; cannot compute EPS PF."

def acqZeroNote : String := "Acquirer shares are zero; cannot compute standalone EPS."

/-- The list `notes` of the `proforma` handler, in emission order
(lines 80-140). -/
def proformaNotes (A T : BasicsSnapshot) (s : DealStructure) : List String :=
  noteIf (A.ni_ttm = none ∨ A.shares = none ∨ A.shares = some 0) acqMissingNote
    ++ noteIf (T.ni_ttm = none ∨ T.shares = none ∨ T.shares = some 0) tgtMissingNote
    ++ noteIf (clampedTax s ≠ s.tax_rate) (taxNote s)
    ++ noteIf ((s.type = DealType.stock ∨ s.type = DealType.mix)
        ∧ orZero s.exchange_ratio = 0) erNote
    ++ noteIf (¬ sharesPf A T s > 0) pfZeroNote
    ++ noteIf (¬ sharesAcq A > 0) acqZeroNote
    ++ noteIf (A.notes ≠ "") ("Acquirer: " ++ A.notes)
    ++ noteIf (T.notes ≠ "") ("Target: " ++ T.notes)

/-- `if eps_pf is not None and eps_acq not in (None, 0)` (lines 134-135). -/
def accretion : Option ℚ → Option ℚ → Option ℚ
| some p, some a => if a = 0 then none else some ((p - a) / a)
| _, _ => none

/-- The `POST /proforma` handler (lines 78-158) as a pure function of the
two basics snapshots and the deal structure.  The acquirer-EPS guard
`shares_acq > 0 and ni_acq is not None` keeps only its first conjunct:
`ni_acq` was defaulted to `0.0` on line 98 and is never `None`. -/
def proforma (A T : BasicsSnapshot) (s : DealStructure) : ProFormaResponse :=
  let eps_pf : Option ℚ :=
    if sharesPf A T s > 0 then some (niPf A T s / sharesPf A T s) else none
  let eps_acq : Option ℚ :=
    if sharesAcq A > 0 then some (orZero A.ni_ttm / sharesAcq A) else none
  { eps_pf := eps_pf
    eps_acq := eps_acq
    accretion_pct := accretion eps_pf eps_acq
    bridge :=
      { ni_pf := some (niPf A T s)
        ni_acq := some (orZero A.ni_ttm)
        ni_tgt := some (orZero T.ni_ttm)
        synergies_net := synergiesNet s
        interest_new_debt_net := interestNewDebtNet s
        interest_lost_net := interestLostNet s
        ppa_amort_post_tax := orZero s.ppa_amort_post_tax
        shares_pf := some (sharesPf A T s)
        shares_acq := some (sharesAcq A) }
    notes := String.intercalate "; " ((proformaNotes A T s).filter (fun n => n != "")) }

/-- Truthiness of an optional float (`if ... and shares:`): present and
nonzero. -/
def truthy : Option ℚ → Bool
| none => false
| some x => x != 0

/-- The eps-path derivation source: `eps_ttm is not None and shares`
(line 57). -/
def epsPath (eps_ttm shares : Option ℚ) : Bool :=
  eps_ttm.isSome && truthy shares

/-- The financial-statements table as `_get_basics` consumes it:
`empty`, and the `"Net Income"` row (`none` when the row is absent from
the index), columns most-recent-first, `none` marking a missing value. -/
structure Financials where
  empty : Bool
  netIncomeRow : Option (List (Option ℚ))

/-- `f"Could not derive NI TTM for {ticker}."` (line 68). -/
def niNote (ticker : String) : String :=
  "Could not derive NI TTM for " ++ (ticker ++ ".")

/-- The net-income-derivation step of `_get_basics` (lines 56-68): the
resulting `ni_ttm` together with the notes appended by this step.
`row.filterMap id` is `.dropna()`; its head is `.iloc[0]`.  The note is
attached to the `else` of the table-shape test only: when the row exists
but every value is missing, `ni_ttm` stays `None` with no note. -/
def deriveNiTtm (ticker : String) (eps_ttm shares : Option ℚ)
    (fin : Option Financials) : Option ℚ × List String :=
  if epsPath eps_ttm shares then
    (some (orZero eps_ttm * orZero shares), [])
  else
    match fin with
    | none => (none, [niNote ticker])
    | some f =>
      if f.empty then (none, [niNote ticker])
      else
        match f.netIncomeRow with
        | none => (none, [niNote ticker])
        | some row =>
          match row.filterMap id with
          | [] => (none, [])
          | v :: _ => (some v, [])

/-- The financials derivation source: a non-empty table whose
`"Net Income"` row carries at least one non-missing value. -/
def finPath : Option Financials → Bool
| none => false
| some f =>
  !f.empty &&
    (match f.netIncomeRow with
     | none => false
     | some row => !(row.filterMap id).isEmpty)

/-- The table-shape failure that triggers the note: table absent, empty,
or lacking a `"Net Income"` row. -/
def finMissing : Option Financials → Bool
| none => true
| some f => f.empty || f.netIncomeRow.isNone

/-! Reference inputs used by the scenario rows of the spec. -/

/-- Acquirer snapshot of the reference scenario. -/
def acqSnap : BasicsSnapshot := { shares := some 500, ni_ttm := some 1000 }

/-- Target snapshot of the reference scenario. -/
def tgtSnap : BasicsSnapshot := { shares := some 100, ni_ttm := some 200 }

/-- Cash reference deal (all adjustments zero, `tax_rate = 0.25`). -/
def cashDeal : DealStructure := { type := DealType.cash }

/-- Stock reference deal with `exchange_ratio = 0.5`. -/
def stockDeal : DealStructure := { type := DealType.stock, exchange_ratio := some (1 / 2) }

/-- Stock deal with no exchange ratio supplied. -/
def noErDeal : DealStructure := { stockDeal with exchange_ratio := none }

/-- Deal with an out-of-range `tax_rate = 0.9` and nonzero synergies. -/
def taxDeal : DealStructure :=
  { type := DealType.cash, tax_rate := 9 / 10, synergies_pre_tax := 100 }

/-- Acquirer snapshot with a legitimate zero share count. -/
def zeroSnap : BasicsSnapshot := { shares := some 0, ni_ttm := some 1000 }

/-! Helper lemmas on strings and note lists. -/

lemma strDataAppend (s t : String) : (s ++ t).data = s.data ++ t.data := rfl

lemma string_ne_of_getElem (i : ℕ) {s t : String} (h : s.data[i]? ≠ t.data[i]?) : s ≠ t :=
  fun e => h (congrArg (fun u : String => u.data[i]?) e)

lemma append_data_getElem (s t : String) (i : ℕ) (h : i < s.data.length) :
    (s ++ t).data[i]? = s.data[i]? := by
  rw [strDataAppend]
  exact List.getElem?_append_left h

lemma floor_sixtyPointFive : ⌊(3 / 5 : ℚ) * 100 + 1 / 2⌋ = 60 := by
  rw [Int.floor_eq_iff]
  norm_num

lemma floor_half : ⌊(0 : ℚ) * 100 + 1 / 2⌋ = 0 := by
  rw [Int.floor_eq_iff]
  norm_num

lemma fmt2_sixTenths : fmt2 (3 / 5) = "0.60" := by
  simp only [fmt2, floor_sixtyPointFive]
  rfl

lemma fmt2_zero : fmt2 0 = "0.00" := by
  simp only [fmt2, floor_half]
  rfl

lemma eq_of_mem_noteIf {c : Prop} [Decidable c] {n m : String} (h : m ∈ noteIf c n) : m = n := by
  by_cases hc : c
  · simpa [noteIf, hc] using h
  · simp [noteIf, hc] at h

lemma cond_of_mem_noteIf {c : Prop} [Decidable c] {n m : String} (h : m ∈ noteIf c n) : c := by
  by_cases hc : c
  · exact hc
  · simp [noteIf, hc] at h

lemma taxNote_data0 (s : DealStructure) : (taxNote s).data[0]? = some 'A' := by
  simp only [taxNote]
  rw [append_data_getElem _ _ 0 (by decide)]
  decide

lemma taxNote_data1 (s : DealStructure) : (taxNote s).data[1]? = some 'd' := by
  simp only [taxNote]
  rw [append_data_getElem _ _ 1 (by decide)]
  decide

/-- Every note the calculator can emit is non-empty, so the Python
filter `[n for n in notes if n]` keeps the list unchanged. -/
lemma proformaNotes_ne_empty (A T : BasicsSnapshot) (s : DealStructure) :
    ∀ n ∈ proformaNotes A T s, n ≠ "" := by
  intro n hn
  simp only [proformaNotes, List.mem_append] at hn
  rcases hn with ((((((h | h) | h) | h) | h) | h) | h) | h
  all_goals rw [eq_of_mem_noteIf h]
  · decide
  · decide
  · apply string_ne_of_getElem 0
    rw [taxNote_data0]
    decide
  · decide
  · decide
  · decide
  · apply string_ne_of_getElem 0
    rw [append_data_getElem _ _ 0 (by decide)]
    decide
  · apply string_ne_of_getElem 0
    rw [append_data_getElem _ _ 0 (by decide)]
    decide

lemma proformaNotes_filter (A T : BasicsSnapshot) (s : DealStructure) :
    (proformaNotes A T s).filter (fun n => n != "") = proformaNotes A T s := by
  rw [List.filter_eq_self]
  intro a ha
  simpa using proformaNotes_ne_empty A T s a ha

/-! Claim theorems. -/

/-- C1: for every pair of snapshots and every deal structure the combined
net income follows the bridge formula (with nulls defaulted to zero and
the clamped tax rate in every after-tax term), and the reference cash
scenario yields `ni_pf = 1200`, `shares_pf = 500`, `eps_pf = 2.4`,
`eps_acq = 2.0`, `accretion_pct = 0.2`. -/
theorem ni_pf_formula_and_cash_scenario (A T : BasicsSnapshot) (s : DealStructure) :
    ((proforma A T s).bridge.ni_pf =
      some (orZero A.ni_ttm + orZero T.ni_ttm
        + s.synergies_pre_tax * (1 - clampedTax s)
        - s.new_debt * s.cost_of_debt * (1 - clampedTax s)
        - s.cash_used * s.lost_interest * (1 - clampedTax s)
        - orZero s.ppa_amort_post_tax))
    ∧ (proforma acqSnap tgtSnap cashDeal).bridge.ni_pf = some 1200
    ∧ (proforma acqSnap tgtSnap cashDeal).bridge.shares_pf = some 500
    ∧ (proforma acqSnap tgtSnap cashDeal).eps_pf = some (12 / 5)
    ∧ (proforma acqSnap tgtSnap cashDeal).eps_acq = some 2
    ∧ (proforma acqSnap tgtSnap cashDeal).accretion_pct = some (1 / 5) := by
  refine ⟨rfl, ?_, ?_, ?_, ?_, ?_⟩
  all_goals
    norm_num [proforma, acqSnap, tgtSnap, cashDeal, niPf, synergiesNet, interestNewDebtNet,
      interestLostNet, clampedTax, orZero, sharesPf, sharesAcq, accretion]

/-- C4: the accretion percentage is `(eps_pf - eps_acq) / eps_acq`
exactly when `eps_pf` is present and `eps_acq` is present and nonzero,
and is null in every other case. -/
theorem accretion_pct_gating (A T : BasicsSnapshot) (s : DealStructure) :
    (proforma A T s).accretion_pct =
      match (proforma A T s).eps_pf, (proforma A T s).eps_acq with
      | some p, some a => if a = 0 then none else some ((p - a) / a)
      | _, _ => none := rfl

/-- C10: every response populates the bridge fields `ni_pf`, `ni_acq`,
`ni_tgt`, `shares_pf` and `shares_acq` with concrete defaulted values,
although the `ProFormaBridge` schema declares them optional. -/
theorem bridge_always_populated (A T : BasicsSnapshot) (s : DealStructure) :
    ((proforma A T s).bridge.ni_pf).isSome = true
    ∧ ((proforma A T s).bridge.ni_acq).isSome = true
    ∧ ((proforma A T s).bridge.ni_tgt).isSome = true
    ∧ ((proforma A T s).bridge.shares_pf).isSome = true
    ∧ ((proforma A T s).bridge.shares_acq).isSome = true :=
  ⟨rfl, rfl, rfl, rfl, rfl⟩

/-- C9: the response's `notes` string is exactly the non-empty emitted
notes joined with `"; "` in emission order: acquirer missing-data note,
target missing-data note, tax-clamp note, exchange-ratio note,
zero-shares note for `eps_pf`, zero-shares note for `eps_acq`, then the
tagged per-ticker diagnostics for the acquirer and the target. -/
theorem notes_joined_in_order (A T : BasicsSnapshot) (s : DealStructure) :
    (proforma A T s).notes =
      String.intercalate "; "
        (noteIf (A.ni_ttm = none ∨ A.shares = none ∨ A.shares = some 0) acqMissingNote
          ++ noteIf (T.ni_ttm = none ∨ T.shares = none ∨ T.shares = some 0) tgtMissingNote
          ++ noteIf (clampedTax s ≠ s.tax_rate) (taxNote s)
          ++ noteIf ((s.type = DealType.stock ∨ s.type = DealType.mix)
              ∧ orZero s.exchange_ratio = 0) erNote
          ++ noteIf (¬ sharesPf A T s > 0) pfZeroNote
          ++ noteIf (¬ sharesAcq A > 0) acqZeroNote
          ++ noteIf (A.notes ≠ "") ("Acquirer: " ++ A.notes)
          ++ noteIf (T.notes ≠ "") ("Target: " ++ T.notes)) := by
  show String.intercalate "; " ((proformaNotes A T s).filter (fun n => n != "")) = _
  rw [proformaNotes_filter]
  rfl

/-- C2: for stock and mix deals the pro-forma share count is the
acquirer's defaulted shares plus the target's defaulted shares times the
defaulted exchange ratio; a zero (or absent) exchange ratio emits the
no-new-shares note; and the reference stock scenario gives
`shares_pf = 550`, `eps_pf = 1200/550`, `accretion_pct = 1/11`. -/
theorem stock_mix_new_shares (A T : BasicsSnapshot) (s : DealStructure)
    (h : s.type = DealType.stock ∨ s.type = DealType.mix) :
    ((proforma A T s).bridge.shares_pf
        = some (orZero A.shares + orZero T.shares * orZero s.exchange_ratio))
    ∧ (orZero s.exchange_ratio = 0 → erNote ∈ proformaNotes A T s)
    ∧ (proforma acqSnap tgtSnap stockDeal).bridge.shares_pf = some 550
    ∧ (proforma acqSnap tgtSnap stockDeal).eps_pf = some (24 / 11)
    ∧ (proforma acqSnap tgtSnap stockDeal).eps_acq = some 2
    ∧ (proforma acqSnap tgtSnap stockDeal).accretion_pct = some (1 / 11) := by
  refine ⟨?_, ?_, ?_, ?_, ?_, ?_⟩
  · show some (sharesPf A T s) = _
    rw [sharesPf, if_pos h]
  · intro he
    simp [proformaNotes, noteIf, h, he]
  all_goals
    norm_num [proforma, acqSnap, tgtSnap, stockDeal, niPf, synergiesNet, interestNewDebtNet,
      interestLostNet, clampedTax, orZero, sharesPf, sharesAcq, accretion]

/-- C2 witness: the universal part instantiated on the reference inputs,
with the exchange-ratio hypothesis discharged on the no-ratio deal. -/
theorem stock_mix_new_shares_witness :
    (stockDeal.type = DealType.stock ∨ stockDeal.type = DealType.mix)
    ∧ ((proforma acqSnap tgtSnap stockDeal).bridge.shares_pf
        = some (orZero acqSnap.shares + orZero tgtSnap.shares * orZero stockDeal.exchange_ratio))
    ∧ orZero noErDeal.exchange_ratio = 0
    ∧ erNote ∈ proformaNotes acqSnap tgtSnap noErDeal :=
  ⟨Or.inl rfl, (stock_mix_new_shares acqSnap tgtSnap stockDeal (Or.inl rfl)).1, rfl,
    (stock_mix_new_shares acqSnap tgtSnap noErDeal (Or.inl rfl)).2.1 rfl⟩

/-- C3: `eps_pf` is `ni_pf / shares_pf` exactly when `shares_pf > 0` and
null otherwise with the pro-forma zero-shares note; `eps_acq` is gated
only by `shares_acq > 0` (the defaulted net income is never a gate) and
is null otherwise with the acquirer zero-shares note; a snapshot with a
zero share count therefore produces the null and the note. -/
theorem eps_zero_shares_gating (A T : BasicsSnapshot) (s : DealStructure) :
    ((proforma A T s).eps_pf
        = if sharesPf A T s > 0 then some (niPf A T s / sharesPf A T s) else none)
    ∧ (¬ sharesPf A T s > 0 → pfZeroNote ∈ proformaNotes A T s)
    ∧ ((proforma A T s).eps_acq
        = if sharesAcq A > 0 then some (orZero A.ni_ttm / sharesAcq A) else none)
    ∧ (¬ sharesAcq A > 0 → acqZeroNote ∈ proformaNotes A T s)
    ∧ (A.shares = some 0 →
        (proforma A T s).eps_acq = none ∧ acqZeroNote ∈ proformaNotes A T s) := by
  have hacq : ∀ h0 : A.shares = some 0, ¬ sharesAcq A > 0 := by
    intro h0
    simp [sharesAcq, h0, orZero]
  refine ⟨rfl, ?_, rfl, ?_, ?_⟩
  · intro hp
    simp [proformaNotes, noteIf, hp]
  · intro ha
    simp [proformaNotes, noteIf, ha]
  · intro h0
    constructor
    · show (if sharesAcq A > 0 then some (orZero A.ni_ttm / sharesAcq A) else none) = none
      rw [if_neg (hacq h0)]
    · simp [proformaNotes, noteIf, hacq h0]

/-- C3 witness: a zero-share acquirer yields the null values and both
zero-shares notes on a concrete cash deal. -/
theorem eps_zero_shares_gating_witness :
    (¬ sharesPf zeroSnap tgtSnap cashDeal > 0)
    ∧ pfZeroNote ∈ proformaNotes zeroSnap tgtSnap cashDeal
    ∧ zeroSnap.shares = some 0
    ∧ (proforma zeroSnap tgtSnap cashDeal).eps_acq = none
    ∧ acqZeroNote ∈ proformaNotes zeroSnap tgtSnap cashDeal := by
  have hp : ¬ sharesPf zeroSnap tgtSnap cashDeal > 0 := by
    norm_num [sharesPf, zeroSnap, cashDeal, orZero]
  have h := eps_zero_shares_gating zeroSnap tgtSnap cashDeal
  exact ⟨hp, h.2.1 hp, rfl, (h.2.2.2.2 rfl).1, (h.2.2.2.2 rfl).2⟩

/-- C5: the three after-tax adjustment terms always use the clamped tax
rate `max(0, min(0.6, tax_rate))`, never the raw input; the clamp note is
emitted exactly when clamping changed the value; and `tax_rate = 0.9` is
clamped to `0.6`, emits `"Adjusted tax_rate to 0.60."`, and the
adjustment terms are computed with `0.6`. -/
theorem tax_clamp_terms_and_note (A T : BasicsSnapshot) (s : DealStructure) :
    (proforma A T s).bridge.synergies_net = s.synergies_pre_tax * (1 - clampedTax s)
    ∧ (proforma A T s).bridge.interest_new_debt_net
        = s.new_debt * s.cost_of_debt * (1 - clampedTax s)
    ∧ (proforma A T s).bridge.interest_lost_net
        = s.cash_used * s.lost_interest * (1 - clampedTax s)
    ∧ clampedTax s = max 0 (min (6 / 10) s.tax_rate)
    ∧ (taxNote s ∈ proformaNotes A T s ↔ clampedTax s ≠ s.tax_rate)
    ∧ clampedTax taxDeal = 3 / 5
    ∧ taxNote taxDeal = "Adjusted tax_rate to 0.60."
    ∧ "Adjusted tax_rate to 0.60." ∈ proformaNotes acqSnap tgtSnap taxDeal
    ∧ (proforma acqSnap tgtSnap taxDeal).bridge.synergies_net = 100 * (1 - 3 / 5) := by
  have hc : clampedTax taxDeal = 3 / 5 := by
    norm_num [clampedTax, taxDeal]
  have hchanged : clampedTax taxDeal ≠ taxDeal.tax_rate := by
    rw [hc]
    norm_num [taxDeal]
  have hnote : taxNote taxDeal = "Adjusted tax_rate to 0.60." := by
    simp only [taxNote, hc, fmt2_sixTenths]
    decide
  refine ⟨rfl, rfl, rfl, rfl, ⟨?_, ?_⟩, hc, hnote, ?_, ?_⟩
  · intro hmem
    by_contra heq
    have heq2 : clampedTax s = s.tax_rate := heq
    simp only [proformaNotes, List.mem_append] at hmem
    rcases hmem with ((((((h | h) | h) | h) | h) | h) | h) | h
    · exact absurd (eq_of_mem_noteIf h)
        (string_ne_of_getElem 0 (by rw [taxNote_data0]; decide))
    · exact absurd (eq_of_mem_noteIf h)
        (string_ne_of_getElem 0 (by rw [taxNote_data0]; decide))
    · exact absurd heq2 (cond_of_mem_noteIf h)
    · exact absurd (eq_of_mem_noteIf h)
        (string_ne_of_getElem 0 (by rw [taxNote_data0]; decide))
    · exact absurd (eq_of_mem_noteIf h)
        (string_ne_of_getElem 0 (by rw [taxNote_data0]; decide))
    · exact absurd (eq_of_mem_noteIf h)
        (string_ne_of_getElem 1 (by rw [taxNote_data1]; decide))
    · exact absurd (eq_of_mem_noteIf h)
        (string_ne_of_getElem 1
          (by rw [taxNote_data1, append_data_getElem _ _ 1 (by decide)]; decide))
    · exact absurd (eq_of_mem_noteIf h)
        (string_ne_of_getElem 0
          (by rw [taxNote_data0, append_data_getElem _ _ 0 (by decide)]; decide))
  · intro hne
    simp [proformaNotes, noteIf, hne]
  · rw [← hnote]
    simp [proformaNotes, noteIf, hchanged]
  · show synergiesNet taxDeal = 100 * (1 - 3 / 5)
    rw [synergiesNet, hc]
    norm_num [taxDeal]

/-- C7: for cash deals the pro-forma share count is the acquirer's own
defaulted share count, and the whole response is unaffected by the
exchange ratio. -/
theorem cash_ignores_exchange_ratio (A T : BasicsSnapshot) (s : DealStructure)
    (er2 : Option ℚ) (h : s.type = DealType.cash) :
    (proforma A T s).bridge.shares_pf = some (orZero A.shares)
    ∧ proforma A T { s with exchange_ratio := er2 } = proforma A T s := by
  obtain ⟨ty, er, nd, cd, cu, li, sy, tr, ppa⟩ := s
  obtain rfl : ty = DealType.cash := h
  constructor
  · simp [proforma, sharesPf]
  · simp [proforma, proformaNotes, noteIf, sharesPf, sharesAcq, niPf, synergiesNet,
      interestNewDebtNet, interestLostNet, clampedTax, taxNote, accretion]

/-- C7 witness: the cash reference deal with a spurious exchange ratio
of 7 produces the identical response. -/
theorem cash_ignores_exchange_ratio_witness :
    cashDeal.type = DealType.cash
    ∧ (proforma acqSnap tgtSnap cashDeal).bridge.shares_pf = some (orZero acqSnap.shares)
    ∧ proforma acqSnap tgtSnap { cashDeal with exchange_ratio := some 7 }
        = proforma acqSnap tgtSnap cashDeal :=
  ⟨rfl, (cash_ignores_exchange_ratio acqSnap tgtSnap cashDeal (some 7) rfl).1,
    (cash_ignores_exchange_ratio acqSnap tgtSnap cashDeal (some 7) rfl).2⟩

/-- C8: replacing an absent value by a literal zero in the acquirer or
target share count, the exchange ratio, or the PPA amortization leaves
the entire response unchanged: every input produces the same response as
its zero-normalized variant. -/
theorem null_and_zero_agree (A T : BasicsSnapshot) (s : DealStructure) :
    proforma A T s =
      proforma { A with shares := some (orZero A.shares) }
        { T with shares := some (orZero T.shares) }
        { s with exchange_ratio := some (orZero s.exchange_ratio),
                 ppa_amort_post_tax := some (orZero s.ppa_amort_post_tax) } := by
  obtain ⟨Ap, Ash, Ae, Ani, Ac, An⟩ := A
  obtain ⟨Tp, Tsh, Te, Tni, Tc, Tn⟩ := T
  obtain ⟨ty, er, nd, cd, cu, li, sy, tr, ppa⟩ := s
  rcases Ash with _ | a <;> rcases Tsh with _ | b <;>
    rcases er with _ | e <;> rcases ppa with _ | p <;>
    simp [proforma, proformaNotes, noteIf, sharesPf, sharesAcq, niPf, synergiesNet,
      interestNewDebtNet, interestLostNet, clampedTax, taxNote, accretion, orZero]

/-- C6 counterexample: with no eps-path data and a financials table whose
`"Net Income"` row exists but holds only missing values, neither
derivation source is available, yet the resolver returns `ni_ttm = None`
with an empty note list — the claimed note is not appended. -/
theorem ni_note_skipped_on_blank_row :
    epsPath none none = false
    ∧ finPath (some { empty := false, netIncomeRow := some [none] }) = false
    ∧ deriveNiTtm "TGT" none none (some { empty := false, netIncomeRow := some [none] })
        = (none, [])
    ∧ niNote "TGT" ∉
        (deriveNiTtm "TGT" none none (some { empty := false, netIncomeRow := some [none] })).2 := by
  refine ⟨rfl, rfl, rfl, ?_⟩
  rw [show (deriveNiTtm "TGT" none none
    (some { empty := false, netIncomeRow := some [none] })).2 = [] from rfl]
  exact List.not_mem_nil _

/-- C6 amended: when neither derivation source is available the resolver
returns a null `ni_ttm`; the note, however, is appended exactly when the
eps path fails and the financials table is absent, empty, or lacks a
`"Net Income"` row — a present row with only missing values yields the
null silently. -/
theorem ni_derivation_null_and_note (ticker : String) (eps_ttm shares : Option ℚ)
    (fin : Option Financials) :
    (epsPath eps_ttm shares = false → finPath fin = false →
      (deriveNiTtm ticker eps_ttm shares fin).1 = none)
    ∧ ((deriveNiTtm ticker eps_ttm shares fin).2 =
        if epsPath eps_ttm shares = false ∧ finMissing fin = true
        then [niNote ticker] else []) := by
  cases hb : epsPath eps_ttm shares
  · rcases fin with _ | ⟨fe, row⟩
    · exact ⟨fun _ _ => by simp [deriveNiTtm, hb], by simp [deriveNiTtm, finMissing, hb]⟩
    · cases fe
      · rcases row with _ | r
        · exact ⟨fun _ _ => by simp [deriveNiTtm, hb], by simp [deriveNiTtm, finMissing, hb]⟩
        · rcases hr : r.filterMap id with _ | ⟨v, rest⟩
          · exact ⟨fun _ _ => by simp [deriveNiTtm, hb, hr],
              by simp [deriveNiTtm, finMissing, hb, hr]⟩
          · constructor
            · intro _ h2
              exfalso
              simp [finPath, hr] at h2
            · simp [deriveNiTtm, finMissing, hb, hr]
      · exact ⟨fun _ _ => by simp [deriveNiTtm, hb], by simp [deriveNiTtm, finMissing, hb]⟩
  · constructor
    · intro h1 _
      exact absurd h1 (by decide)
    · simp [deriveNiTtm, hb]

/-- C6 witness: a wholly absent provider response (no eps, no shares, no
financials table) yields the null together with the note. -/
theorem ni_derivation_null_and_note_witness :
    epsPath none none = false
    ∧ finPath none = false
    ∧ (deriveNiTtm "ACQ" none none none).1 = none
    ∧ (deriveNiTtm "ACQ" none none none).2 = [niNote "ACQ"] := by
  have h := ni_derivation_null_and_note "ACQ" none none none
  refine ⟨rfl, rfl, h.1 rfl rfl, ?_⟩
  rw [h.2]
  rfl

end EpsService
